import Mathlib

/-!
Verification of the dataspot pattern-mining core against its specification.

The Python sources under `dataspot/` are embedded shallowly: scalar record
values become an inductive `Value` type, records become association lists,
floats become rationals, and Python's stable `list.sort` becomes
`List.insertionSort` (which is stable and sorted).  Components whose source
file is not part of the source tree (`base.py`, `filters.py`,
`pattern_extractor.py`, `models/pattern.py`) are modelled from the
specification text; their doc comments say so explicitly.
-/

namespace DataspotV

/-- Scalar value of a record field: string, number, boolean, or null
(`models/pattern.py` is absent; the value universe follows spec section 3). -/
inductive Value where
  | str (s : String)
  | int (n : Int)
  | bool (b : Bool)
  | null
deriving DecidableEq, BEq, Repr

/-- Python `str()` on a scalar value, used to stringify grouping keys. -/
def valueToStr : Value → String
  | .str s => s
  | .int n => toString n
  | .bool b => if b then "True" else "False"
  | .null => "None"

/-- One record: an ordered mapping from field name to scalar value. -/
abbrev Record : Type := List (String × Value)

/-- Python `record.get(field)`: first binding of the field, if present. -/
def pyGet (r : Record) (f : String) : Option Value :=
  List.lookup f r

/-- Condition a query imposes on one field: a literal (equality) or a list
of acceptable values (membership), per spec section 6. -/
inductive QueryCond where
  | one (v : Value)
  | many (vs : List Value)
deriving DecidableEq, BEq, Repr

/-- Declarative pre-filter query: field name to condition. -/
abbrev Query : Type := List (String × QueryCond)

/-- Modelled from the spec: the query pre-filter collaborator (`base.py` is
absent from the sources).  A record matches when every queried field is
present and its value equals the literal or belongs to the listed values. -/
def recordMatches (q : Query) (r : Record) : Bool :=
  q.all fun fc =>
    match pyGet r fc.1, fc.2 with
    | some v, .one w => v == w
    | some v, .many ws => ws.contains v
    | none, _ => false

/-- Modelled from the spec: `Base._filter_data_by_query` (`base.py` is absent
from the sources).  An absent or empty query means no filtering. -/
def filterDataByQuery (data : List Record) (q : Option Query) : List Record :=
  match q with
  | none => data
  | some ql => if ql.isEmpty then data else data.filter (recordMatches ql)

/-- Flattened view of one concentration-tree node (`models/pattern.py` is
absent; fields follow spec section 3). -/
structure Pattern where
  path : String
  count : Nat
  percentage : ℚ
  depth : Nat
  samples : List Record
deriving DecidableEq, Repr

/-- Rounding to two decimal places, as the spec requires for percentages. -/
def round2 (q : ℚ) : ℚ :=
  ((round (q * 100) : ℤ) : ℚ) / 100

/-- Concentration percentage of a count against the filtered total; zero
total gives zero rather than a division error (spec section 4.2). -/
def pctOf (count total : Nat) : ℚ :=
  if total = 0 then 0 else round2 ((count : ℚ) / (total : ℚ) * 100)

/-- Input to `Finder.execute` (`FindInput` of `models/finder.py`; the
dataclass body is absent from the sources, fields taken from its uses). -/
structure FindInput where
  data : List Record
  fields : List String
  query : Option Query := none

/-- Options of `Finder.execute` (`FindOptions` of `models/finder.py`; the
dataclass body is absent from the sources, fields taken from its uses). -/
structure FindOptions where
  min_percentage : Option ℚ := none
  max_percentage : Option ℚ := none
  min_count : Option Nat := none
  max_count : Option Nat := none
  min_depth : Option Nat := none
  max_depth : Option Nat := none
  contains : Option String := none
  exclude : Option (List String) := none
  regex : Option String := none
  limit : Option Nat := none
  sort_by : Option String := none
  reverse : Option Bool := none

/-- Result of `Finder.execute` (`FindOutput` of `models/finder.py`). -/
structure FindOutput where
  patterns : List Pattern
  total_records : Nat
  total_patterns : Nat
deriving DecidableEq, Repr

/-- Separator between path segments (spec section 4.2). -/
def sepStr : String := " > "

/-- Separator inside one `field=value` segment. -/
def eqStr : String := "="

/-- Grouping key of a record for one field: the stringified preprocessed
value, with missing values falling into the stable sentinel branch
(spec sections 4.1 and 9; `str(None)` in Python). -/
def keyOf (f : String) (r : Record) : String :=
  match pyGet r f with
  | some v => valueToStr v
  | none => valueToStr Value.null

/-- First-seen-order deduplication, the order Python dict keys preserve. -/
def firstSeenAux (seen : List String) : List String → List String
  | [] => []
  | x :: xs =>
    if x ∈ seen then firstSeenAux seen xs
    else x :: firstSeenAux (x :: seen) xs

/-- Distinct elements of a list in first-seen order. -/
def firstSeen (l : List String) : List String :=
  firstSeenAux [] l

/-- Modelled from the spec: tree build plus pattern extraction fused
(`pattern_extractor.py` is absent from the sources).  Spec section 4.2
explicitly allows the extractor to re-scan records instead of keeping a
tree: for each field in order, records are grouped by stringified value in
first-seen order, one pattern is emitted per group (count, global
percentage, depth, first three matching records as samples), and the walk
recurses into the group — a pre-order walk of the concentration tree. -/
def extractGo (total : Nat) (pPath : String) (depth : Nat) (recs : List Record) :
    List String → List Pattern
  | [] => []
  | f :: rest =>
    (firstSeen (recs.map (keyOf f))).flatMap fun k =>
      let sub := recs.filter fun r => keyOf f r == k
      let seg := f ++ eqStr ++ k
      let p := if pPath.isEmpty then seg else pPath ++ sepStr ++ seg
      { path := p, count := sub.length, percentage := pctOf sub.length total,
        depth := depth, samples := sub.take 3 } :: extractGo total p (depth + 1) sub rest

/-- Modelled from the spec: `PatternExtractor.from_tree` composed with the
tree build (spec sections 4.1 and 4.2). -/
def extractPatterns (recs : List Record) (fields : List String) (total : Nat) :
    List Pattern :=
  extractGo total ("") 1 recs fields

/-- Substring containment, Python's `sub in s` on strings. -/
def strContains (s sub : String) : Bool :=
  sub.isEmpty || (s.splitOn sub).length ≥ 2

/-- Modelled from the spec: the conjunction of predicates of the filter
pipeline (`filters.py` is absent from the sources; spec section 4.3).  The
regex collaborator is abstracted as the `rmatch` parameter because no regex
engine is part of this core's sources. -/
def patternPasses (rmatch : String → String → Bool) (opts : FindOptions)
    (p : Pattern) : Bool :=
  (match opts.min_percentage with | some m => decide (m ≤ p.percentage) | none => true)
  && (match opts.max_percentage with | some m => decide (p.percentage ≤ m) | none => true)
  && (match opts.min_count with | some m => decide (m ≤ p.count) | none => true)
  && (match opts.max_count with | some m => decide (p.count ≤ m) | none => true)
  && (match opts.min_depth with | some m => decide (m ≤ p.depth) | none => true)
  && (match opts.max_depth with | some m => decide (p.depth ≤ m) | none => true)
  && (match opts.contains with | some c => strContains p.path c | none => true)
  && (match opts.exclude with | some ex => !(ex.any (strContains p.path)) | none => true)
  && (match opts.regex with | some rx => rmatch rx p.path | none => true)

/-- Modelled from the spec: `PatternFilter.apply_all` (`filters.py` is absent
from the sources): ANDed predicate filtering, then `limit` truncation. -/
def applyAll (rmatch : String → String → Bool) (opts : FindOptions)
    (ps : List Pattern) : List Pattern :=
  let fp := ps.filter (patternPasses rmatch opts)
  match opts.limit with
  | some n => fp.take n
  | none => fp

/-- Descending-percentage order used by the stable sorts. -/
def percDesc : Pattern → Pattern → Prop := fun a b => b.percentage ≤ a.percentage

/-- Ascending-percentage order. -/
def percAsc : Pattern → Pattern → Prop := fun a b => a.percentage ≤ b.percentage

/-- Descending-count order. -/
def countDesc : Pattern → Pattern → Prop := fun a b => b.count ≤ a.count

/-- Ascending-count order. -/
def countAsc : Pattern → Pattern → Prop := fun a b => a.count ≤ b.count

/-- Descending-depth order. -/
def depthDesc : Pattern → Pattern → Prop := fun a b => b.depth ≤ a.depth

/-- Ascending-depth order. -/
def depthAsc : Pattern → Pattern → Prop := fun a b => a.depth ≤ b.depth

instance : DecidableRel percDesc :=
  fun a b => inferInstanceAs (Decidable (b.percentage ≤ a.percentage))

instance : DecidableRel percAsc :=
  fun a b => inferInstanceAs (Decidable (a.percentage ≤ b.percentage))

instance : DecidableRel countDesc :=
  fun a b => inferInstanceAs (Decidable (b.count ≤ a.count))

instance : DecidableRel countAsc :=
  fun a b => inferInstanceAs (Decidable (a.count ≤ b.count))

instance : DecidableRel depthDesc :=
  fun a b => inferInstanceAs (Decidable (b.depth ≤ a.depth))

instance : DecidableRel depthAsc :=
  fun a b => inferInstanceAs (Decidable (a.depth ≤ b.depth))

/-- `Finder._sort_patterns` (finder.py lines 72-89): stable sort by the
named numeric field; an unrecognized name leaves the list untouched.
Python's `list.sort` with `reverse=True` is the stable sort by the flipped
key order, which `List.insertionSort` with the descending relation is. -/
def sortPatterns (ps : List Pattern) (sortBy : String) (rev : Bool) : List Pattern :=
  if sortBy = "percentage" then
    if rev then ps.insertionSort percDesc else ps.insertionSort percAsc
  else if sortBy = "count" then
    if rev then ps.insertionSort countDesc else ps.insertionSort countAsc
  else if sortBy = "depth" then
    if rev then ps.insertionSort depthDesc else ps.insertionSort depthAsc
  else ps

/-- `Finder.execute` (finder.py lines 19-70).  `_validate_data` never fails
here because records are well formed by construction of `Record`.  The
`rmatch` parameter carries the abstracted regex collaborator through to the
filter pipeline. -/
def finderExecute (rmatch : String → String → Bool) (input : FindInput)
    (options : FindOptions) : FindOutput :=
  if input.fields.isEmpty then
    { patterns := [], total_records := input.data.length, total_patterns := 0 }
  else
    let filtered := filterDataByQuery input.data input.query
    if filtered.isEmpty then
      { patterns := [], total_records := input.data.length, total_patterns := 0 }
    else
      let pats := extractPatterns filtered input.fields filtered.length
      let fp := applyAll rmatch options pats
      let sortedPats :=
        match options.sort_by with
        | some sb => sortPatterns fp sb (options.reverse.getD true)
        | none => fp
      { patterns := sortedPats, total_records := filtered.length,
        total_patterns := sortedPats.length }

/-- Value of a Python float as this engine uses it: a finite rational or
positive infinity (the only infinity `_compare_patterns` produces). -/
inductive FloatVal where
  | fin (q : ℚ)
  | inf
deriving DecidableEq, Repr

/-- Entry of the path-indexed dictionaries `_get_patterns` builds
(compare.py lines 160-167); the loop defaults lack the depth key, hence the
`Option` (compare.py lines 185-190). -/
structure PatternInfo where
  count : Nat
  percentage : ℚ
  samples : List Record
  depth : Option Nat
deriving DecidableEq, Repr

/-- Path-to-info mapping a Finder run is reduced to for comparison. -/
abbrev PatternMap : Type := List (String × PatternInfo)

/-- Default entry `{"count": 0, "percentage": 0.0, "samples": []}` used for
a path absent from one side (compare.py lines 185-190). -/
def defaultInfo : PatternInfo :=
  { count := 0, percentage := 0, samples := [], depth := none }

/-- One change record of the comparison (`ChangeItem` fields, compare.py
lines 224-240).  The opaque statistics collaborator is tracked only by
whether a result was attached (`has_stats`), per spec section 6. -/
structure ChangeInfo where
  path : String
  current_count : Nat
  baseline_count : Nat
  count_change : Int
  count_change_percentage : FloatVal
  relative_change : FloatVal
  current_percentage : ℚ
  baseline_percentage : ℚ
  percentage_change : ℚ
  status : String
  is_new : Bool
  is_disappeared : Bool
  is_significant : Bool
  depth : Nat
  has_stats : Bool
deriving DecidableEq, Repr

/-- Threshold ladder of `Compare._get_change_status` (compare.py lines
263-272), ordered from highest to lowest. -/
def statusThresholds : List (ℚ × String) :=
  [(200, "CRITICAL_INCREASE"),
   (100, "SIGNIFICANT_INCREASE"),
   (50, "INCREASE"),
   (15, "SLIGHT_INCREASE"),
   (-15, "STABLE"),
   (-50, "SLIGHT_DECREASE"),
   (-80, "DECREASE"),
   (-100, "CRITICAL_DECREASE")]

/-- First threshold the change percentage reaches wins (compare.py lines
274-278). -/
def statusFromThresholds (q : ℚ) : List (ℚ × String) → String
  | [] => "DISAPPEARED"
  | ts :: rest => if ts.1 ≤ q then ts.2 else statusFromThresholds q rest

/-- `Compare._get_change_status` (compare.py lines 257-278): infinity is
always NEW, otherwise the descending threshold ladder decides. -/
def getChangeStatus : FloatVal → String
  | .inf => "NEW"
  | .fin q => statusFromThresholds q statusThresholds

/-- Loop body of `Compare._compare_patterns` for one path (compare.py lines
184-242). -/
def compareOne (cur base : PatternMap) (statSig : Bool) (threshold : ℚ)
    (path : String) : ChangeInfo :=
  let c := (List.lookup path cur).getD defaultInfo
  let b := (List.lookup path base).getD defaultInfo
  let countChange : Int := (c.count : Int) - (b.count : Int)
  let countChangePct : FloatVal :=
    if b.count > 0 then .fin ((countChange : ℚ) / (b.count : ℚ) * 100)
    else if c.count > 0 then .inf else .fin 0
  let relativeChange : FloatVal :=
    if b.count > 0 then .fin ((countChange : ℚ) / (b.count : ℚ))
    else if c.count > 0 then .inf else .fin 0
  let isSignificant : Bool :=
    match relativeChange with
    | .fin r => decide (threshold ≤ |r|)
    | .inf => decide (c.count > 5)
  { path := path,
    current_count := c.count,
    baseline_count := b.count,
    count_change := countChange,
    count_change_percentage := countChangePct,
    relative_change := relativeChange,
    current_percentage := c.percentage,
    baseline_percentage := b.percentage,
    percentage_change := c.percentage - b.percentage,
    status := getChangeStatus countChangePct,
    is_new := (List.lookup path base).isNone,
    is_disappeared := (List.lookup path cur).isNone,
    is_significant := isSignificant,
    depth := c.depth.getD (b.depth.getD 1),
    has_stats := statSig && decide (b.count > 0) && decide (c.count > 0) }

/-- Union of the two key sets.  Python iterates a hash set in unspecified
order; the model fixes current-side keys first, then baseline-only keys,
each deduplicated in first-seen order. -/
def allPathsOf (cur base : PatternMap) : List String :=
  firstSeen (cur.map Prod.fst ++ base.map Prod.fst)

/-- Sort key of the final ordering: significance first, then magnitude of
the change percentage with infinity replaced by the 1000 sentinel
(compare.py lines 245-253). -/
def changeSortKey (c : ChangeInfo) : Nat × ℚ :=
  (if c.is_significant then 1 else 0,
   match c.count_change_percentage with
   | .inf => (1000 : ℚ)
   | .fin q => |q|)

/-- Lexicographic order on the sort keys, as Python tuple comparison. -/
def keyLex (x y : Nat × ℚ) : Prop :=
  x.1 < y.1 ∨ (x.1 = y.1 ∧ x.2 ≤ y.2)

/-- Descending variant used with `reverse=True`. -/
def changeDescRel : ChangeInfo → ChangeInfo → Prop :=
  fun a b => keyLex (changeSortKey b) (changeSortKey a)

instance : DecidableRel changeDescRel := fun _a _b =>
  inferInstanceAs (Decidable (_ ∨ _))

/-- `Compare._compare_patterns` (compare.py lines 171-255): one change per
path in the union, sorted descending by significance then magnitude. -/
def comparePatterns (cur base : PatternMap) (statSig : Bool) (threshold : ℚ) :
    List ChangeInfo :=
  ((allPathsOf cur base).map (compareOne cur base statSig threshold)).insertionSort
    changeDescRel

/-- Errors a Python call can raise; only coarse classification matters to
the claims (exceptions are values in the embedding). -/
inductive PyError where
  | typeError
  | dataError
  | other
deriving DecidableEq, Repr

/-- Input of `Discovery.execute` (`DiscoverInput` of `models/discovery.py`). -/
structure DiscoverInput where
  data : List Record
  query : Option Query := none

/-- Options of `Discovery.execute` (`DiscoverOptions` of
`models/discovery.py`; discovery parameters plus the filter passthroughs
`discovery.py` forwards into `FindOptions`). -/
structure DiscoverOptions where
  max_fields : Nat := 3
  max_combinations : Nat := 10
  min_percentage : Option ℚ := none
  max_percentage : Option ℚ := none
  min_count : Option Nat := none
  max_count : Option Nat := none
  min_depth : Option Nat := none
  max_depth : Option Nat := none
  contains : Option String := none
  exclude : Option (List String) := none
  regex : Option String := none
  limit : Option Nat := none
  sort_by : Option String := none
  reverse : Option Bool := none

/-- One attempted combination record (`CombinationTried`). -/
structure CombinationTried where
  fields : List String
  patterns_found : Nat
deriving DecidableEq, Repr

/-- Statistics block of a discovery run (`DiscoveryStatistics`). -/
structure DiscoveryStatistics where
  total_records : Nat
  fields_analyzed : Nat
  combinations_tried : Nat
  patterns_discovered : Nat
  best_concentration : ℚ
deriving DecidableEq, Repr

/-- Result of `Discovery.execute` (`DiscoverOutput`). -/
structure DiscoverOutput where
  top_patterns : List Pattern
  field_ranking : List (String × ℚ)
  combinations_tried : List CombinationTried
  statistics : DiscoveryStatistics
  fields_analyzed : List String
deriving DecidableEq, Repr

/-- `Discovery._is_suitable_for_analysis` (discovery.py lines 137-174).
Python float literals `0.8` and `0.95` are exact rationals here; with at
most 100 sampled values the float comparisons of the source never differ
from the rational ones. -/
def isSuitableForAnalysis (data : List Record) (field : String)
    (sampleSize : Nat) : Bool :=
  let values := (data.take sampleSize).map fun r => pyGet r field
  let nonNull := values.filterMap fun o =>
    match o with
    | some v => if v = Value.null then none else some v
    | none => none
  if nonNull.length < 2 then false
  else
    let uniqueValues := (firstSeen (nonNull.map valueToStr)).length
    let totalValues := nonNull.length
    let uniqueRatio : ℚ := (uniqueValues : ℚ) / (totalValues : ℚ)
    if uniqueValues ≤ 1 then false
    else if totalValues ≤ 5 then decide (2 ≤ uniqueValues)
    else decide (2 ≤ uniqueValues)
      && decide ((uniqueValues : ℚ) ≤ (totalValues : ℚ) * (0.8 : ℚ))
      && decide (uniqueRatio < (0.95 : ℚ))

/-- `Discovery._detect_categorical_fields` (discovery.py lines 112-135):
union of field names over the first up to 100 records (a Python set, whose
unspecified order the model fixes as first-seen order), filtered for
categorical suitability. -/
def detectCategoricalFields (data : List Record) : List String :=
  let sampleSize := min 100 data.length
  let allFields := firstSeen ((data.take sampleSize).flatMap fun r => r.map Prod.fst)
  allFields.filter fun f => isSuitableForAnalysis data f sampleSize

/-- `Discovery._calculate_field_score` (discovery.py lines 219-240). -/
def calculateFieldScore (patterns : List Pattern) : ℚ :=
  match patterns with
  | [] => 0
  | p0 :: rest =>
    let maxConcentration := (rest.map Pattern.percentage).foldl max p0.percentage
    let significantPatterns := patterns.countP fun p => decide ((10 : ℚ) ≤ p.percentage)
    maxConcentration * (1 / 2) + (significantPatterns : ℚ) * 5
      + (patterns.length : ℚ) * (1 / 2)

/-- Descending order on scored fields (`sorted` with `key=x[1]`,
`reverse=True`, discovery.py line 217). -/
def scoreDesc : (String × ℚ) → (String × ℚ) → Prop :=
  fun a b => b.2 ≤ a.2

instance : DecidableRel scoreDesc :=
  fun a b => inferInstanceAs (Decidable (b.2 ≤ a.2))

/-- `Discovery._score_fields_by_potential` (discovery.py lines 176-217),
parameterized by the single-field Finder call, which in Python can raise:
the `except Exception` catch-all maps a raised error to the score 0 while
keeping the field.  Result sorted descending by score (stable). -/
def scoreFieldsByPotential (call : String → Except PyError (List Pattern))
    (fields : List String) : List (String × ℚ) :=
  (fields.map fun f =>
    match call f with
    | .ok ps => (f, calculateFieldScore ps)
    | .error _ => (f, (0 : ℚ))).insertionSort scoreDesc

/-- Options of the per-field scoring Finder calls: minimum percentage
lowered to 5 and the passthroughs forwarded (discovery.py lines 196-209). -/
def scoreFindOptions (opts : DiscoverOptions) : FindOptions :=
  { min_percentage := some 5,
    max_percentage := opts.max_percentage,
    min_count := opts.min_count,
    max_count := opts.max_count,
    min_depth := opts.min_depth,
    max_depth := opts.max_depth,
    contains := opts.contains,
    exclude := opts.exclude,
    regex := opts.regex,
    limit := opts.limit,
    sort_by := opts.sort_by,
    reverse := opts.reverse }

/-- Options of the combination-search Finder calls (discovery.py lines
274-287 and 301-314). -/
def comboFindOptions (opts : DiscoverOptions) : FindOptions :=
  { min_percentage := opts.min_percentage,
    max_percentage := opts.max_percentage,
    min_count := opts.min_count,
    max_count := opts.max_count,
    min_depth := opts.min_depth,
    max_depth := opts.max_depth,
    contains := opts.contains,
    exclude := opts.exclude,
    regex := opts.regex,
    limit := opts.limit,
    sort_by := opts.sort_by,
    reverse := opts.reverse }

/-- `itertools.combinations` in its order: combinations of size `k` drawn
left to right. -/
def combosOf : Nat → List String → List (List String)
  | 0, _ => [[]]
  | _ + 1, [] => []
  | k + 1, x :: xs => (combosOf k xs).map (x :: ·) ++ combosOf (k + 1) xs

/-- `Discovery._discover_pattern_combinations` (discovery.py lines 242-325):
single-field attempts for the top `max_fields` candidates, then for every
size from 2 up to `max_fields` (bounded by candidate count) the first
`max_combinations` combinations of that size.  The Python guard
`if patterns:` is always true — `FindOutput` is a dataclass without
`__bool__` — so every executed attempt is recorded. -/
def discoverPatternCombinations (rmatch : String → String → Bool)
    (data : List Record) (fieldScores : List (String × ℚ))
    (opts : DiscoverOptions) : List Pattern × List CombinationTried :=
  let topFields := (fieldScores.take (min (opts.max_fields + 2) fieldScores.length)).map
    Prod.fst
  let singleRuns := (topFields.take opts.max_fields).map fun f =>
    ([f], (finderExecute rmatch { data := data, fields := [f] }
      (comboFindOptions opts)).patterns)
  let sizes := (List.range (min (opts.max_fields + 1) (topFields.length + 1))).drop 2
  let sizedRuns := sizes.flatMap fun k =>
    ((combosOf k topFields).take opts.max_combinations).map fun fc =>
      (fc, (finderExecute rmatch { data := data, fields := fc }
        (comboFindOptions opts)).patterns)
  let runs := singleRuns ++ sizedRuns
  (runs.flatMap fun r => r.2,
   runs.map fun r => { fields := r.1, patterns_found := r.2.length })

/-- Insert-or-better step of the deduplication dictionary: a new path is
appended (dict insertion order), a better percentage replaces the stored
pattern in place (dict update keeps position), discovery.py lines 338-343. -/
def upsertByPath (acc : List Pattern) (p : Pattern) : List Pattern :=
  if acc.any fun q => q.path = p.path then
    acc.map fun q =>
      if q.path = p.path ∧ q.percentage < p.percentage then p else q
  else acc ++ [p]

/-- `Discovery._rank_and_deduplicate_patterns` (discovery.py lines
327-346): deduplicate by path keeping the higher percentage, then sort
descending by percentage. -/
def rankAndDeduplicatePatterns (patterns : List Pattern) : List Pattern :=
  (patterns.foldl upsertByPath []).insertionSort percDesc

/-- Empty result `Discovery._build_empty_discovery_result` (discovery.py
lines 94-110). -/
def emptyDiscoveryResult : DiscoverOutput :=
  { top_patterns := [],
    field_ranking := [],
    combinations_tried := [],
    statistics := { total_records := 0, fields_analyzed := 0,
                    combinations_tried := 0, patterns_discovered := 0,
                    best_concentration := 0 },
    fields_analyzed := [] }

/-- `Discovery.execute` (discovery.py lines 27-92).  The per-field scoring
Finder call is total in the embedding, hence wrapped in `.ok`. -/
def discoveryExecute (rmatch : String → String → Bool) (input : DiscoverInput)
    (opts : DiscoverOptions) : DiscoverOutput :=
  let data := filterDataByQuery input.data input.query
  if data.isEmpty then emptyDiscoveryResult
  else
    let availableFields := detectCategoricalFields data
    let fieldScores := scoreFieldsByPotential
      (fun f => .ok (finderExecute rmatch { data := data, fields := [f] }
        (scoreFindOptions opts)).patterns)
      availableFields
    let pc := discoverPatternCombinations rmatch data fieldScores opts
    let topPatterns := rankAndDeduplicatePatterns pc.1
    let best : ℚ :=
      match topPatterns with
      | [] => 0
      | p0 :: rest => ((rest.take 19).map Pattern.percentage).foldl max p0.percentage
    { top_patterns := topPatterns.take 20,
      field_ranking := fieldScores,
      combinations_tried := pc.2,
      statistics := { total_records := data.length,
                      fields_analyzed := availableFields.length,
                      combinations_tried := pc.2.length,
                      patterns_discovered := (topPatterns.take 20).length,
                      best_concentration := best },
      fields_analyzed := availableFields }

/-- Keyword options of `Tree.execute` (core.py tree docstring): `top` plus
the node filters `TreeFilter` forwards to the pattern filter. -/
structure TreeOptions where
  top : Option Nat := none
  min_value : Option Nat := none
  max_value : Option Nat := none
  min_percentage : Option ℚ := none
  max_percentage : Option ℚ := none
  min_depth : Option Nat := none
  max_depth : Option Nat := none
  contains : Option String := none
  exclude : Option (List String) := none
  regex : Option String := none

/-- Modelled from the spec: `TreeFilter.build_filter_kwargs` (`filters.py`
is absent from the sources).  Per the core.py docstring, `min_value` and
`max_value` are the count bounds; the remaining filters pass through. -/
def treeFilterOptions (t : TreeOptions) : FindOptions :=
  { min_percentage := t.min_percentage,
    max_percentage := t.max_percentage,
    min_count := t.min_value,
    max_count := t.max_value,
    min_depth := t.min_depth,
    max_depth := t.max_depth,
    contains := t.contains,
    exclude := t.exclude,
    regex := t.regex }

/-- Node of the rendered tree view (`TreeNode` of `models/tree.py`). -/
inductive ViewNode where
  | mk (name : String) (value : Nat) (percentage : ℚ) (node : Nat)
       (children : List ViewNode)

/-- Statistics block of a tree run (`TreeStatistics` of `models/tree.py`). -/
structure TreeStatistics where
  total_records : Nat
  filtered_records : Nat
  patterns_found : Nat
  fields_analyzed : Nat
deriving DecidableEq, Repr

/-- Result of `Tree.execute` (`TreeOutput` of `models/tree.py`). -/
structure TreeOutput where
  name : String
  children : List ViewNode
  value : Nat
  percentage : ℚ
  node : Nat
  top : Nat
  statistics : TreeStatistics
  fields_analyzed : List String

/-- Last `field=value` segment of a path, the rendered node name. -/
def lastSegment (path : String) : String :=
  (path.splitOn sepStr).getLastD path

/-- Modelled from the spec: child assembly of `TreeBuilder.build`
(`pattern_extractor.py` is absent from the sources; spec section 4.7).
Patterns are grouped one depth level at a time under their path prefix and
only the `top` children by percentage descending survive at each level.
Node value and percentage come from the corresponding pattern; the spec
leaves the child identifier ambiguous (section 3 notes the id is reused as
a depth proxy), so the model uses the pattern depth.  Fuel is the field
count, the maximal pattern depth. -/
def viewChildren (fuel : Nat) (patterns : List Pattern) (pPath : String)
    (depth : Nat) (top : Nat) : List ViewNode :=
  match fuel with
  | 0 => []
  | n + 1 =>
    let here := patterns.filter fun p =>
      decide (p.depth = depth)
        && (if depth = 1 then true else String.isPrefixOf (pPath ++ sepStr) p.path)
    let kept := (here.insertionSort percDesc).take top
    kept.map fun p =>
      ViewNode.mk (lastSegment p.path) p.count p.percentage p.depth
        (viewChildren n patterns p.path (depth + 1) top)

/-- `Tree.execute` (tree_analyzer.py lines 18-96).  When the filtered
record set is empty the source returns the literal empty tree of lines
45-61; otherwise it delegates the root to `TreeBuilder.build`, modelled
from spec section 4.7: the synthetic root carries the filtered total as
value and the percentage 100. -/
def treeExecute (rmatch : String → String → Bool) (data : List Record)
    (fields : List String) (query : Option Query) (topts : TreeOptions) :
    TreeOutput :=
  let filtered := filterDataByQuery data query
  let top := topts.top.getD 5
  if filtered.isEmpty then
    { name := "root", children := [], value := 0, percentage := 0, node := 0,
      top := top,
      statistics := { total_records := data.length, filtered_records := 0,
                      patterns_found := 0, fields_analyzed := fields.length },
      fields_analyzed := fields }
  else
    let totalRecords := filtered.length
    let allPatterns := extractPatterns filtered fields totalRecords
    let filteredPatterns := applyAll rmatch (treeFilterOptions topts) allPatterns
    { name := "root",
      children := viewChildren (fields.length + 1) filteredPatterns ("") 1 top,
      value := totalRecords, percentage := 100, node := 0, top := top,
      statistics := { total_records := data.length,
                      filtered_records := totalRecords,
                      patterns_found := filteredPatterns.length,
                      fields_analyzed := fields.length },
      fields_analyzed := fields }

/-- Number of positional parameters `Finder.execute` accepts besides
`self`: exactly `input` and `options` (finder.py lines 19-23). -/
def finderExecutePositionalParams : Nat := 2

/-- Number of positional arguments `Dataspot.find` passes to
`finder.execute`: `data`, `fields`, `query` (core.py line 79). -/
def dataspotFindPositionalArgs : Nat := 3

/-- `Dataspot.find` (core.py lines 30-79) under Python calling semantics:
binding more positional arguments than the callee's signature accepts
raises `TypeError` before the callee body runs.  Were the binding to
succeed, the call would run `Finder.execute` with default options (the
keyword arguments are empty in that hypothetical). -/
def dataspotFind (rmatch : String → String → Bool) (data : List Record)
    (fields : List String) (query : Option Query) : Except PyError FindOutput :=
  if dataspotFindPositionalArgs ≤ finderExecutePositionalParams then
    .ok (finderExecute rmatch { data := data, fields := fields, query := query } {})
  else
    .error .typeError

/-- Spec-side restatement of the status ladder, written as the claim words
it: a descending sequence of `≥` rungs, first match wins, infinite change
always NEW.  To be compared with the source-side `getChangeStatus`. -/
def statusLadderSpec : FloatVal → String
  | .inf => "NEW"
  | .fin q =>
    if q ≥ (200 : ℚ) then "CRITICAL_INCREASE"
    else if q ≥ (100 : ℚ) then "SIGNIFICANT_INCREASE"
    else if q ≥ (50 : ℚ) then "INCREASE"
    else if q ≥ (15 : ℚ) then "SLIGHT_INCREASE"
    else if q ≥ (-15 : ℚ) then "STABLE"
    else if q ≥ (-50 : ℚ) then "SLIGHT_DECREASE"
    else if q ≥ (-80 : ℚ) then "DECREASE"
    else if q ≥ (-100 : ℚ) then "CRITICAL_DECREASE"
    else "DISAPPEARED"

/-- Non-null values of one field over the sampled (first up to 100)
records, the population the field-detection claim speaks about. -/
def sampledNonNull (data : List Record) (field : String) : List Value :=
  ((data.take (min 100 data.length)).map fun r => pyGet r field).filterMap fun o =>
    match o with
    | some v => if v = Value.null then none else some v
    | none => none

/-- Spec-side restatement of the field-suitability condition as the claim
words it: at least 2 distinct stringified values, and either at most 5
non-null values or additionally distinct count at most 80% of the non-null
count and distinct-to-total ratio strictly below 0.95. -/
def detectSpec (data : List Record) (field : String) : Prop :=
  let vals := sampledNonNull data field
  let d := (firstSeen (vals.map valueToStr)).length
  let t := vals.length
  2 ≤ d ∧ (t ≤ 5 ∨ ((d : ℚ) ≤ (t : ℚ) * (0.8 : ℚ) ∧ (d : ℚ) / (t : ℚ) < (0.95 : ℚ)))

instance : IsTotal Pattern percDesc :=
  ⟨fun a b => le_total b.percentage a.percentage⟩

instance : IsTrans Pattern percDesc :=
  ⟨fun _ _ _ hab hbc => le_trans hbc hab⟩

instance : IsTotal Pattern percAsc :=
  ⟨fun a b => le_total a.percentage b.percentage⟩

instance : IsTrans Pattern percAsc :=
  ⟨fun _ _ _ hab hbc => le_trans hab hbc⟩

/-- The source threshold-list walk computes exactly the spec's descending
ladder of `≥` rungs. -/
theorem statusLadder_eq (v : FloatVal) : getChangeStatus v = statusLadderSpec v := by
  cases v <;> rfl

/-- C10: for every record list, field list, and query, the public facade
`Dataspot.find` raises a `TypeError` before any analysis runs: it passes
three positional arguments (data, fields, query) to `Finder.execute`,
whose signature accepts exactly one `FindInput` and one `FindOptions`. -/
theorem find_facade_type_error (rmatch : String → String → Bool)
    (data : List Record) (fields : List String) (query : Option Query) :
    dataspotFind rmatch data fields query = Except.error PyError.typeError := rfl

/-- C2: the status of every compared pattern path is determined solely from
its count-change percentage by the first matching rung of the descending
ladder (≥200 CRITICAL_INCREASE, ≥100 SIGNIFICANT_INCREASE, ≥50 INCREASE,
≥15 SLIGHT_INCREASE, ≥−15 STABLE, ≥−50 SLIGHT_DECREASE, ≥−80 DECREASE,
≥−100 CRITICAL_DECREASE, else DISAPPEARED), and an infinite change is
always NEW. -/
theorem change_status_ladder (cur base : PatternMap) (ss : Bool) (θ : ℚ)
    (path : String) :
    (compareOne cur base ss θ path).status
      = statusLadderSpec (compareOne cur base ss θ path).count_change_percentage :=
  statusLadder_eq _

/-- C1 counterexample: with one record, one field, and a query matching no
record, `Finder.execute` reports `total_records = 1` (the original input
size) while the filtered record count is 0 — the early-return branch does
not use the post-filter count. -/
theorem finder_total_records_counterexample :
    (finderExecute (fun _ _ => false)
        { data := [[(("a" : String), Value.str ("1"))]],
          fields := [("a" : String)],
          query := some [(("a" : String), QueryCond.one (Value.str ("2")))] }
        {}).total_records
      ≠ (filterDataByQuery [[(("a" : String), Value.str ("1"))]]
          (some [(("a" : String), QueryCond.one (Value.str ("2")))])).length := by
  decide

/-- C1 amended: `total_records` equals the post-filter count only on the
normal path; in the two early-return branches (empty field list — where
the query has not even been applied yet — and empty filtered record set)
it equals the original input length. -/
theorem finder_total_records (rmatch : String → String → Bool)
    (input : FindInput) (options : FindOptions) :
    (finderExecute rmatch input options).total_records =
      if input.fields.isEmpty then input.data.length
      else if (filterDataByQuery input.data input.query).isEmpty then
        input.data.length
      else (filterDataByQuery input.data input.query).length := by
  by_cases h1 : input.fields.isEmpty
  · simp [finderExecute, h1]
  · by_cases h2 : (filterDataByQuery input.data input.query).isEmpty
    · simp [finderExecute, h1, h2]
    · simp [finderExecute, h1, h2]

/-- C9 counterexample: when the query filters out every record, the tree
view's root reports percentage 0, not 100. -/
theorem tree_root_counterexample :
    (treeExecute (fun _ _ => false) [[(("a" : String), Value.str ("1"))]]
        [("a" : String)]
        (some [(("a" : String), QueryCond.one (Value.str ("2")))]) {}).percentage
      ≠ 100 := by
  decide

/-- C9 amended: the synthetic root's value always equals the filtered
record count, and its percentage is 100 exactly when at least one record
survives the pre-filter; with an empty filtered record set the source's
early return reports percentage 0 instead. -/
theorem tree_root_fields (rmatch : String → String → Bool) (data : List Record)
    (fields : List String) (query : Option Query) (topts : TreeOptions) :
    (treeExecute rmatch data fields query topts).value
        = (filterDataByQuery data query).length
    ∧ (treeExecute rmatch data fields query topts).percentage
        = (if (filterDataByQuery data query).isEmpty then 0 else 100) := by
  by_cases h : (filterDataByQuery data query).isEmpty
  · refine ⟨?_, by simp [treeExecute, h]⟩
    have hnil : filterDataByQuery data query = [] := by
      simpa using h
    simp [treeExecute, h, hnil]
  · exact ⟨by simp [treeExecute, h], by simp [treeExecute, h]⟩

/-- C5: with `sort_by="percentage"` the sorting step's output is
non-increasing in percentage when `reverse` is true and non-decreasing
when it is false, and `Finder.execute` defaults `reverse` to true whenever
`sort_by` is set but `reverse` is unset. -/
theorem finder_sorting (ps : List Pattern) (rmatch : String → String → Bool)
    (input : FindInput) (opts : FindOptions) (sb : String)
    (h1 : opts.sort_by = some sb) (h2 : opts.reverse = none) :
    List.Sorted percDesc (sortPatterns ps ("percentage") true)
    ∧ List.Sorted percAsc (sortPatterns ps ("percentage") false)
    ∧ finderExecute rmatch input opts
        = finderExecute rmatch input { opts with reverse := some true } := by
  refine ⟨?_, ?_, ?_⟩
  · simpa [sortPatterns] using List.sorted_insertionSort percDesc ps
  · simpa [sortPatterns] using List.sorted_insertionSort percAsc ps
  · simp only [finderExecute, applyAll, h1, h2, Option.getD_none, Option.getD_some]
    rfl

/-- Closed instance of the sorting claim at a concrete input. -/
theorem finder_sorting_witness :
    List.Sorted percDesc (sortPatterns [] ("percentage") true)
    ∧ finderExecute (fun _ _ => false)
        { data := [[(("a" : String), Value.str ("1"))]], fields := [("a" : String)] }
        { sort_by := some ("percentage") }
      = finderExecute (fun _ _ => false)
        { data := [[(("a" : String), Value.str ("1"))]], fields := [("a" : String)] }
        { sort_by := some ("percentage"), reverse := some true } := by
  have h := finder_sorting []
    (fun _ _ => false)
    { data := [[(("a" : String), Value.str ("1"))]], fields := [("a" : String)] }
    { sort_by := some ("percentage") }
    ("percentage") rfl rfl
  exact ⟨h.1, h.2.2⟩

/-- Membership of the first-seen deduplication: exactly the elements not
already seen. -/
theorem mem_firstSeenAux {x : String} :
    ∀ (seen l : List String), x ∈ firstSeenAux seen l ↔ x ∈ l ∧ x ∉ seen := by
  intro seen l
  induction l generalizing seen with
  | nil => simp [firstSeenAux]
  | cons y ys ih =>
    simp only [firstSeenAux]
    by_cases h : y ∈ seen
    · rw [if_pos h, ih seen]
      constructor
      · rintro ⟨hx, hs⟩
        exact ⟨List.mem_cons_of_mem _ hx, hs⟩
      · rintro ⟨hx, hs⟩
        rcases List.mem_cons.mp hx with rfl | hx
        · exact absurd h hs
        · exact ⟨hx, hs⟩
    · rw [if_neg h]
      simp only [List.mem_cons, ih (y :: seen)]
      constructor
      · rintro (rfl | ⟨hx, hs⟩)
        · exact ⟨Or.inl rfl, h⟩
        · exact ⟨Or.inr hx, fun hc => hs (Or.inr hc)⟩
      · rintro ⟨rfl | hx, hs⟩
        · exact Or.inl rfl
        · by_cases hxy : x = y
          · exact Or.inl hxy
          · exact Or.inr ⟨hx, by simp [hxy, hs]⟩


/-- Member of `firstSeen` exactly when member of the list. -/
theorem mem_firstSeen {x : String} {l : List String} :
    x ∈ firstSeen l ↔ x ∈ l := by
  simp [firstSeen, mem_firstSeenAux]

/-- Association-list lookup misses exactly the keys not present. -/
theorem lookup_none_iff {β : Type} {l : List (String × β)} {a : String} :
    List.lookup a l = none ↔ a ∉ l.map Prod.fst := by
  induction l with
  | nil => simp
  | cons kv rest ih =>
    rcases kv with ⟨k, v⟩
    by_cases h : a = k
    · subst h
      simp [List.lookup]
    · simp [List.lookup, h, ih, beq_false_of_ne h]

/-- Every path of either side appears among the compared paths. -/
theorem mem_allPathsOf {cur base : PatternMap} {path : String}
    (h : path ∈ cur.map Prod.fst ∨ path ∈ base.map Prod.fst) :
    path ∈ allPathsOf cur base := by
  rw [allPathsOf, mem_firstSeen, List.mem_append]
  exact h

/-- C8: a path present only in the baseline pattern set yields a change
record with `current_count = 0` and `is_disappeared = true`; a path
present only in the current pattern set (with the positive count every
extracted pattern carries) yields `is_new = true` and status NEW.  In both
cases that change record is part of the comparison output. -/
theorem compare_only_sided_paths (cur base : PatternMap) (ss : Bool) (θ : ℚ)
    (path : String) :
    (List.lookup path cur = none → (List.lookup path base).isSome = true →
      (compareOne cur base ss θ path).current_count = 0
        ∧ (compareOne cur base ss θ path).is_disappeared = true
        ∧ compareOne cur base ss θ path ∈ comparePatterns cur base ss θ)
    ∧ (List.lookup path base = none →
       ∀ info, List.lookup path cur = some info → 0 < info.count →
      (compareOne cur base ss θ path).is_new = true
        ∧ (compareOne cur base ss θ path).status = "NEW"
        ∧ compareOne cur base ss θ path ∈ comparePatterns cur base ss θ) := by
  constructor
  · intro hcur hbase
    refine ⟨?_, ?_, ?_⟩
    · simp [compareOne, hcur, defaultInfo]
    · simp [compareOne, hcur]
    · rw [comparePatterns, List.mem_insertionSort]
      refine List.mem_map_of_mem _ (mem_allPathsOf (Or.inr ?_))
      by_contra hmem
      rw [← lookup_none_iff] at hmem
      rw [hmem] at hbase
      simp at hbase
  · intro hbase info hcur hpos
    refine ⟨?_, ?_, ?_⟩
    · simp [compareOne, hbase]
    · simp [compareOne, hbase, hcur, defaultInfo, getChangeStatus, hpos]
    · rw [comparePatterns, List.mem_insertionSort]
      refine List.mem_map_of_mem _ (mem_allPathsOf (Or.inl ?_))
      by_contra hmem
      rw [← lookup_none_iff] at hmem
      rw [hmem] at hcur
      simp at hcur

/-- Closed instance of the only-sided-path claim: a baseline-only path is
reported disappeared with current count 0, a current-only path is new with
status NEW. -/
theorem compare_only_sided_witness :
    (compareOne
        [(("x" : String), ({ count := 7, percentage := 70, samples := [], depth := some 1 } : PatternInfo))]
        [(("y" : String), ({ count := 2, percentage := 20, samples := [], depth := some 1 } : PatternInfo))]
        false (3/20) ("y")).is_disappeared = true
    ∧ (compareOne
        [(("x" : String), ({ count := 7, percentage := 70, samples := [], depth := some 1 } : PatternInfo))]
        [(("y" : String), ({ count := 2, percentage := 20, samples := [], depth := some 1 } : PatternInfo))]
        false (3/20) ("y")).current_count = 0
    ∧ (compareOne
        [(("x" : String), ({ count := 7, percentage := 70, samples := [], depth := some 1 } : PatternInfo))]
        [(("y" : String), ({ count := 2, percentage := 20, samples := [], depth := some 1 } : PatternInfo))]
        false (3/20) ("x")).is_new = true
    ∧ (compareOne
        [(("x" : String), ({ count := 7, percentage := 70, samples := [], depth := some 1 } : PatternInfo))]
        [(("y" : String), ({ count := 2, percentage := 20, samples := [], depth := some 1 } : PatternInfo))]
        false (3/20) ("x")).status = "NEW" := by
  have hy := compare_only_sided_paths
    [(("x" : String), ({ count := 7, percentage := 70, samples := [], depth := some 1 } : PatternInfo))]
    [(("y" : String), ({ count := 2, percentage := 20, samples := [], depth := some 1 } : PatternInfo))]
    false (3/20) ("y")
  have hx := compare_only_sided_paths
    [(("x" : String), ({ count := 7, percentage := 70, samples := [], depth := some 1 } : PatternInfo))]
    [(("y" : String), ({ count := 2, percentage := 20, samples := [], depth := some 1 } : PatternInfo))]
    false (3/20) ("x")
  have h1 := hy.1 (by decide) (by decide)
  have h2 := hx.2 (by decide)
    ({ count := 7, percentage := 70, samples := [], depth := some 1 } : PatternInfo)
    (by decide) (by decide)
  exact ⟨h1.2.1, h1.1, h2.1, h2.2.1⟩

/-- C3: for a compared path with positive baseline count, significance
holds exactly when the absolute relative change reaches the caller's
threshold; for a brand-new path (baseline 0, current positive) it instead
holds exactly when the current count exceeds 5. -/
theorem compare_significance (cur base : PatternMap) (ss : Bool) (θ : ℚ)
    (path : String) :
    (0 < ((List.lookup path base).getD defaultInfo).count →
      ((compareOne cur base ss θ path).is_significant = true ↔
        θ ≤ |((((List.lookup path cur).getD defaultInfo).count : ℚ)
              - (((List.lookup path base).getD defaultInfo).count : ℚ))
            / (((List.lookup path base).getD defaultInfo).count : ℚ)|))
    ∧ (((List.lookup path base).getD defaultInfo).count = 0 →
       0 < ((List.lookup path cur).getD defaultInfo).count →
      ((compareOne cur base ss θ path).is_significant = true ↔
        5 < ((List.lookup path cur).getD defaultInfo).count)) := by
  constructor
  · intro hb
    simp only [compareOne, hb, if_pos, decide_eq_true_eq]
    push_cast
    rfl
  · intro hb hc
    have hb' : ¬ (0 < ((List.lookup path base).getD defaultInfo).count) := by
      simp [hb]
    simp only [compareOne]
    rw [if_neg hb', if_pos hc]
    simp

/-- Closed instance of the significance claim: relative change −1 on a
positive baseline is significant at threshold 0.15, and a new path with
current count 7 is significant. -/
theorem compare_significance_witness :
    (compareOne
        [(("x" : String), ({ count := 7, percentage := 70, samples := [], depth := some 1 } : PatternInfo))]
        [(("y" : String), ({ count := 2, percentage := 20, samples := [], depth := some 1 } : PatternInfo))]
        false (3/20) ("y")).is_significant = true
    ∧ (compareOne
        [(("x" : String), ({ count := 7, percentage := 70, samples := [], depth := some 1 } : PatternInfo))]
        [(("y" : String), ({ count := 2, percentage := 20, samples := [], depth := some 1 } : PatternInfo))]
        false (3/20) ("x")).is_significant = true := by
  have hy := compare_significance
    [(("x" : String), ({ count := 7, percentage := 70, samples := [], depth := some 1 } : PatternInfo))]
    [(("y" : String), ({ count := 2, percentage := 20, samples := [], depth := some 1 } : PatternInfo))]
    false (3/20) ("y")
  have hx := compare_significance
    [(("x" : String), ({ count := 7, percentage := 70, samples := [], depth := some 1 } : PatternInfo))]
    [(("y" : String), ({ count := 2, percentage := 20, samples := [], depth := some 1 } : PatternInfo))]
    false (3/20) ("x")
  have hbeq : (("y" : String) == ("x" : String)) = false := rfl
  exact ⟨(hy.1 (by decide)).mpr (by norm_num [List.lookup, defaultInfo, hbeq]),
         (hx.2 (by decide) (by decide)).mpr (by decide)⟩

/-- C7: a field whose single-field Finder call raises any error is scored
0 and retained in the returned ranking (the `except Exception` catch-all
converts the failure instead of propagating it — the scoring function
totalizes the fallible call, so no exception reaches the discover
caller), and no field is dropped. -/
theorem discovery_score_failure (call : String → Except PyError (List Pattern))
    (fields : List String) (field : String) (e : PyError)
    (hmem : field ∈ fields) (herr : call field = .error e) :
    (field, (0 : ℚ)) ∈ scoreFieldsByPotential call fields
    ∧ (scoreFieldsByPotential call fields).length = fields.length := by
  constructor
  · rw [scoreFieldsByPotential, List.mem_insertionSort]
    refine List.mem_map.mpr ⟨field, hmem, ?_⟩
    rw [herr]
  · rw [scoreFieldsByPotential, List.length_insertionSort, List.length_map]

/-- Closed instance of the scoring-failure claim: a one-field ranking over
an always-failing Finder call keeps the field with score 0. -/
theorem discovery_score_failure_witness :
    ((("f" : String), (0 : ℚ))
        ∈ scoreFieldsByPotential (fun _ => Except.error PyError.other) [("f" : String)])
    ∧ (scoreFieldsByPotential (fun _ => Except.error PyError.other)
        [("f" : String)]).length = 1 := by
  have h := discovery_score_failure (fun _ => Except.error PyError.other)
    [("f" : String)] ("f") PyError.other (List.mem_singleton_self _) rfl
  exact ⟨h.1, h.2⟩

/-- First-seen deduplication never lengthens a list. -/
theorem length_firstSeenAux_le (seen l : List String) :
    (firstSeenAux seen l).length ≤ l.length := by
  induction l generalizing seen with
  | nil => simp [firstSeenAux]
  | cons y ys ih =>
    simp only [firstSeenAux]
    by_cases h : y ∈ seen
    · rw [if_pos h]
      exact (ih seen).trans (Nat.le_succ _)
    · rw [if_neg h]
      simpa using ih (y :: seen)

/-- Suitability core equivalence: the source's guard cascade over a fixed
non-null value list equals the claim's two-part condition. -/
theorem suitable_core_iff (ns : List Value) :
    (if ns.length < 2 then false
     else if (firstSeen (ns.map valueToStr)).length ≤ 1 then false
     else if ns.length ≤ 5 then decide (2 ≤ (firstSeen (ns.map valueToStr)).length)
     else decide (2 ≤ (firstSeen (ns.map valueToStr)).length)
       && decide (((firstSeen (ns.map valueToStr)).length : ℚ)
            ≤ (ns.length : ℚ) * (0.8 : ℚ))
       && decide (((firstSeen (ns.map valueToStr)).length : ℚ) / (ns.length : ℚ)
            < (0.95 : ℚ))) = true
    ↔ (2 ≤ (firstSeen (ns.map valueToStr)).length
        ∧ (ns.length ≤ 5
           ∨ (((firstSeen (ns.map valueToStr)).length : ℚ)
                ≤ (ns.length : ℚ) * (0.8 : ℚ)
              ∧ ((firstSeen (ns.map valueToStr)).length : ℚ) / (ns.length : ℚ)
                < (0.95 : ℚ)))) := by
  have hle : (firstSeen (ns.map valueToStr)).length ≤ ns.length := by
    have := length_firstSeenAux_le [] (ns.map valueToStr)
    simpa [firstSeen] using this
  by_cases h2 : ns.length < 2
  · rw [if_pos h2]
    simp only [Bool.false_eq_true, false_iff, not_and]
    intro hd
    omega
  · rw [if_neg h2]
    by_cases hd1 : (firstSeen (ns.map valueToStr)).length ≤ 1
    · rw [if_pos hd1]
      simp only [Bool.false_eq_true, false_iff, not_and]
      intro hd
      omega
    · rw [if_neg hd1]
      have hd2 : 2 ≤ (firstSeen (ns.map valueToStr)).length := by omega
      by_cases h5 : ns.length ≤ 5
      · rw [if_pos h5]
        simp [hd2, h5]
      · rw [if_neg h5]
        simp [hd2, h5]

/-- C6: a field survives `Discovery`'s detection over the first up to 100
records exactly when its non-null sampled values have at least 2 distinct
stringified values and either number at most 5, or additionally the
distinct count stays within 80% of the non-null count and the
distinct-to-total ratio stays strictly below 0.95. -/
theorem detect_categorical_iff (data : List Record) (field : String) :
    field ∈ detectCategoricalFields data ↔ detectSpec data field := by
  by_cases hmem :
      field ∈ ((data.take (min 100 data.length)).flatMap fun r => r.map Prod.fst)
  · simp only [detectCategoricalFields, List.mem_filter, mem_firstSeen, hmem,
      true_and]
    exact suitable_core_iff (sampledNonNull data field)
  · constructor
    · intro h
      simp only [detectCategoricalFields, List.mem_filter, mem_firstSeen] at h
      exact absurd h.1 hmem
    · intro h
      exfalso
      have hnil : sampledNonNull data field = [] := by
        rw [sampledNonNull]
        rw [List.filterMap_eq_nil_iff]
        intro o ho
        rcases List.mem_map.mp ho with ⟨r, hr, rfl⟩
        have hnk : field ∉ r.map Prod.fst := fun hc =>
          hmem (List.mem_flatMap.mpr ⟨r, hr, hc⟩)
        rw [pyGet, lookup_none_iff.mpr hnk]
      rw [detectSpec, hnil] at h
      simp [firstSeen, firstSeenAux] at h

/-- Every combination drawn for size `k` has exactly `k` fields. -/
theorem combosOf_length :
    ∀ (l : List String) (k : Nat) (c : List String), c ∈ combosOf k l → c.length = k := by
  intro l
  induction l with
  | nil =>
    intro k c hc
    cases k with
    | zero => simp [combosOf] at hc; simp [hc]
    | succ k => simp [combosOf] at hc
  | cons x xs ih =>
    intro k c hc
    cases k with
    | zero => simp [combosOf] at hc; simp [hc]
    | succ k =>
      simp only [combosOf, List.mem_append, List.mem_map] at hc
      rcases hc with ⟨c', hc', rfl⟩ | hc
      · simp [ih k c' hc']
      · exact ih (k + 1) c hc

/-- Budget bound over a run of per-size blocks: when every block of a size
other than `k` contributes nothing to the count and the size-`k` block is
itself bounded, the whole flattened run is bounded. -/
theorem countP_flatMap_le {α : Type} (mc k : Nat) (F : Nat → List α)
    (p : α → Bool) (sizes : List Nat) (hnd : sizes.Nodup)
    (hlen : ∀ j, j ≠ k → ∀ a ∈ F j, p a = false)
    (hbound : (F k).length ≤ mc) :
    (sizes.flatMap F).countP p ≤ mc := by
  induction sizes with
  | nil => simp
  | cons j rest ih =>
    rw [List.flatMap_cons, List.countP_append]
    rcases List.nodup_cons.mp hnd with ⟨hj, hnd'⟩
    by_cases hjk : j = k
    · subst hjk
      have h1 : (F j).countP p ≤ mc := (List.countP_le_length _).trans hbound
      have h2 : (rest.flatMap F).countP p = 0 := by
        rw [List.countP_eq_zero]
        intro a ha
        rcases List.mem_flatMap.mp ha with ⟨j', hj', ha'⟩
        have hne : j' ≠ j := fun he => hj (he ▸ hj')
        simp [hlen j' hne a ha']
      omega
    · have h1 : (F j).countP p = 0 := by
        rw [List.countP_eq_zero]
        intro a ha
        simp [hlen j hjk a ha]
      have h2 := ih hnd'
      omega

/-- The deduplication upsert keeps the stored paths distinct. -/
theorem upsert_paths_nodup (acc : List Pattern) (p : Pattern)
    (h : (acc.map Pattern.path).Nodup) :
    ((upsertByPath acc p).map Pattern.path).Nodup := by
  rw [upsertByPath]
  by_cases hc : acc.any fun q => decide (q.path = p.path)
  · rw [if_pos hc]
    have hmap : (acc.map fun q =>
        if q.path = p.path ∧ q.percentage < p.percentage then p else q).map
          Pattern.path = acc.map Pattern.path := by
      rw [List.map_map]
      apply List.map_congr_left
      intro q _
      by_cases hq : q.path = p.path ∧ q.percentage < p.percentage
      · simp [hq, hq.1]
      · simp [hq]
    rw [hmap]
    exact h
  · rw [if_neg hc]
    rw [List.map_append]
    refine h.append (List.nodup_singleton _) ?_
    intro a ha hb
    rcases List.mem_singleton.mp hb with rfl
    rcases List.mem_map.mp ha with ⟨q, hq, hqe⟩
    rw [List.any_eq_true] at hc
    exact hc ⟨q, hq, by simp [hqe]⟩

/-- Folding the upsert from distinct paths keeps paths distinct. -/
theorem foldl_upsert_nodup :
    ∀ (ps acc : List Pattern), (acc.map Pattern.path).Nodup →
      ((ps.foldl upsertByPath acc).map Pattern.path).Nodup := by
  intro ps
  induction ps with
  | nil => intro acc h; simpa using h
  | cons p rest ih =>
    intro acc h
    rw [List.foldl_cons]
    exact ih _ (upsert_paths_nodup acc p h)

/-- The ranked deduplicated pattern list has pairwise distinct paths. -/
theorem rankDedup_paths_nodup (ps : List Pattern) :
    ((rankAndDeduplicatePatterns ps).map Pattern.path).Nodup := by
  rw [rankAndDeduplicatePatterns]
  have hperm := List.perm_insertionSort percDesc (ps.foldl upsertByPath [])
  exact (hperm.map Pattern.path).nodup_iff.mpr
    (foldl_upsert_nodup ps [] (by simp))

/-- Per-size budget of the combination search: among all recorded
attempts, those with `k ≥ 2` fields number at most `max_combinations`. -/
theorem discoverCombos_budget (rmatch : String → String → Bool)
    (data : List Record) (fieldScores : List (String × ℚ))
    (opts : DiscoverOptions) (k : Nat) (hk : 2 ≤ k) :
    ((discoverPatternCombinations rmatch data fieldScores opts).2.countP
      (fun c => c.fields.length == k)) ≤ opts.max_combinations := by
  simp only [discoverPatternCombinations]
  rw [List.map_append, List.countP_append]
  have h1 : ∀ (l : List String),
      (((l.take opts.max_fields).map fun f =>
        ([f], (finderExecute rmatch { data := data, fields := [f] }
          (comboFindOptions opts)).patterns)).map fun r =>
            ({ fields := r.1, patterns_found := r.2.length } : CombinationTried)).countP
        (fun c => c.fields.length == k) = 0 := by
    intro l
    rw [List.countP_eq_zero]
    intro c hc
    rcases List.mem_map.mp hc with ⟨r, hr, rfl⟩
    rcases List.mem_map.mp hr with ⟨f, _, rfl⟩
    simp only [List.length_cons, List.length_nil]
    have : 1 ≠ k := by omega
    simp [this]
  have h2 :
      ((((List.range (min (opts.max_fields + 1)
          (((fieldScores.take (min (opts.max_fields + 2) fieldScores.length)).map
            Prod.fst).length + 1))).drop 2).flatMap fun j =>
        ((combosOf j ((fieldScores.take (min (opts.max_fields + 2)
            fieldScores.length)).map Prod.fst)).take opts.max_combinations).map
          fun fc => (fc, (finderExecute rmatch { data := data, fields := fc }
            (comboFindOptions opts)).patterns)).map fun r =>
            ({ fields := r.1, patterns_found := r.2.length } : CombinationTried)).countP
        (fun c => c.fields.length == k) ≤ opts.max_combinations := by
    rw [List.map_flatMap]
    refine countP_flatMap_le opts.max_combinations k _ _ _
      ((List.nodup_range _).sublist (List.drop_sublist ..)) ?_ ?_
    · intro j hj a ha
      rw [List.map_map] at ha
      rcases List.mem_map.mp ha with ⟨fc, hfc, rfl⟩
      have hlenfc := combosOf_length _ j fc (List.mem_of_mem_take hfc)
      simp only [Function.comp]
      simp [hlenfc, hj]
    · rw [List.map_map, List.length_map]
      exact List.length_take_le ..
  have := h1 ((fieldScores.take (min (opts.max_fields + 2) fieldScores.length)).map
    Prod.fst)
  omega

/-- C4: discovery attempts at most `max_combinations` field combinations
per combination size of 2 or more, and the returned top patterns number at
most 20 with no path appearing twice. -/
theorem discovery_budget (rmatch : String → String → Bool)
    (input : DiscoverInput) (opts : DiscoverOptions) (k : Nat) (hk : 2 ≤ k) :
    ((discoveryExecute rmatch input opts).top_patterns.length ≤ 20)
    ∧ ((discoveryExecute rmatch input opts).top_patterns.map Pattern.path).Nodup
    ∧ ((discoveryExecute rmatch input opts).combinations_tried.countP
        (fun c => c.fields.length == k)) ≤ opts.max_combinations := by
  by_cases hdata : (filterDataByQuery input.data input.query).isEmpty
  · simp [discoveryExecute, hdata, emptyDiscoveryResult]
  · have hout :
        (discoveryExecute rmatch input opts).top_patterns
          = (rankAndDeduplicatePatterns
              (discoverPatternCombinations rmatch
                (filterDataByQuery input.data input.query)
                (scoreFieldsByPotential
                  (fun f => .ok (finderExecute rmatch
                    { data := filterDataByQuery input.data input.query,
                      fields := [f] } (scoreFindOptions opts)).patterns)
                  (detectCategoricalFields
                    (filterDataByQuery input.data input.query)))
                opts).1).take 20 := by
      simp [discoveryExecute, hdata]
    have htried :
        (discoveryExecute rmatch input opts).combinations_tried
          = (discoverPatternCombinations rmatch
              (filterDataByQuery input.data input.query)
              (scoreFieldsByPotential
                (fun f => .ok (finderExecute rmatch
                  { data := filterDataByQuery input.data input.query,
                    fields := [f] } (scoreFindOptions opts)).patterns)
                (detectCategoricalFields
                  (filterDataByQuery input.data input.query)))
              opts).2 := by
      simp [discoveryExecute, hdata]
    refine ⟨?_, ?_, ?_⟩
    · rw [hout]
      exact List.length_take_le ..
    · rw [hout, List.map_take]
      exact (rankDedup_paths_nodup _).sublist (List.take_sublist ..)
    · rw [htried]
      exact discoverCombos_budget rmatch _ _ opts k hk

/-- Closed instance of the budget claim at size 2 with default options. -/
theorem discovery_budget_witness :
    ((discoveryExecute (fun _ _ => false) { data := [] } {}).top_patterns.length ≤ 20)
    ∧ ((discoveryExecute (fun _ _ => false)
        { data := [] } {}).top_patterns.map Pattern.path).Nodup
    ∧ ((discoveryExecute (fun _ _ => false) { data := [] } {}).combinations_tried.countP
        (fun c => c.fields.length == 2)) ≤ ({} : DiscoverOptions).max_combinations :=
  discovery_budget (fun _ _ => false) { data := [] } {} 2 (by norm_num)

end DataspotV
